import Mathlib

/-!
Shallow embedding of the MeteoPredictor weather-prediction pipeline.

The embedding follows the Python sources:
* `data_collector.py` — geocoding and live acquisition (`WeatherDataCollector`);
* `predict.py` — model loading, feature extraction, AQI category, health
  advice, and prediction assembly (`WeatherPredictor`);
* `app.py` — the `/api/predict` route with its fallback to the cached
  historical dataset (`get_sample_city_data`);
* `train_model.py` — temperature-model candidate selection
  (`WeatherModelTrainer.train_temperature_model`).

Numeric payload values are modelled as rationals; a value that may be absent
in the loosely structured API payload (Python `None`) is an `Option`.
Python exceptions that escape a function are modelled with `Except`.
-/

namespace MeteoPredictor

/-- A raw reading as assembled by `WeatherDataCollector._parse_data`:
every payload field is fetched with `.get` and may be `None`. -/
structure Reading where
  timestamp : String
  city : String
  temperature : Option ℚ
  feels_like : Option ℚ
  temp_min : Option ℚ
  temp_max : Option ℚ
  pressure : Option ℚ
  humidity : Option ℚ
  wind_speed : Option ℚ
  wind_deg : Option ℚ
  clouds : Option ℚ
  weather_main : Option String
  weather_description : Option String
  aqi : Option ℤ
  pm2_5 : Option ℚ
  pm10 : Option ℚ
  co : Option ℚ
  no2 : Option ℚ
  o3 : Option ℚ
  so2 : Option ℚ
deriving Repr, DecidableEq

/-- The part of `datetime.now()` that feature extraction reads. -/
structure Timestamp where
  hour : ℕ
  month : ℕ
deriving Repr, DecidableEq

/-- Python truthiness of an optional numeric value: `None` and `0` are falsy. -/
def pyTruthy : Option ℚ → Bool
  | none => false
  | some v => v ≠ 0

/-- Python `x or 0` on an optional numeric value. -/
def pyOrZero (x : Option ℚ) : ℚ :=
  if pyTruthy x then x.getD 0 else 0

/-- `WeatherPredictor.get_aqi_category` (`predict.py`) and the identical
`get_aqi_category` helper in `app.py`: a dictionary lookup with default
`"Unknown"`. -/
def get_aqi_category (aqi : ℤ) : String :=
  if aqi = 1 then "Good"
  else if aqi = 2 then "Fair"
  else if aqi = 3 then "Moderate"
  else if aqi = 4 then "Poor"
  else if aqi = 5 then "Very Poor"
  else "Unknown"

/-- `get_aqi_category(live_data['aqi'])` where the argument may be `None`:
`dict.get` with a missing key returns the default. -/
def aqiCategoryOpt : Option ℤ → String
  | none => "Unknown"
  | some a => get_aqi_category a

/-- `WeatherPredictor.get_health_advice` (`predict.py`).  The Python
condition `aqi >= 4 or (pm25 and pm25 > 55)` compares `pm25 > 55` only when
`pm25` is truthy (present and nonzero). -/
def get_health_advice (aqi : ℤ) (pm25 : Option ℚ) : String :=
  if 4 ≤ aqi ∨ (pyTruthy pm25 = true ∧ 55 < pm25.getD 0) then
    "⚠️ Air quality is poor. Avoid outdoor activities. Wear a mask if going outside."
  else if aqi = 3 then
    "⚡ Moderate air quality. Sensitive groups should limit outdoor activities."
  else
    "✅ Air quality is good. Safe for outdoor activities."

/-- The temperature feature row built in `WeatherPredictor.predict_for_city`:
only `pm2_5` and `pm10` are read with `or 0`; every other field is read
directly and an absent value flows into the array unchanged. -/
def features_temp (d : Reading) (now : Timestamp) : List (Option ℚ) :=
  [d.feels_like, d.temp_min, d.temp_max, d.pressure, d.humidity,
   d.wind_speed, d.clouds, some (pyOrZero d.pm2_5), some (pyOrZero d.pm10),
   some (now.hour : ℚ), some (now.month : ℚ)]

/-- The weather-classifier feature row built in
`WeatherPredictor.predict_for_city`. -/
def features_weather (d : Reading) (now : Timestamp) : List (Option ℚ) :=
  [d.temperature, d.humidity, d.pressure, d.wind_speed, d.clouds,
   some (pyOrZero d.pm2_5), d.aqi.map (fun a => (a : ℚ)),
   some (now.hour : ℚ), some (now.month : ℚ)]

/-- The humidity feature row built in `WeatherPredictor.predict_for_city`. -/
def features_humidity (d : Reading) (now : Timestamp) : List (Option ℚ) :=
  [d.temperature, d.pressure, d.wind_speed, d.clouds,
   some (pyOrZero d.pm2_5), some (now.hour : ℚ), some (now.month : ℚ)]

/-- A loaded regressor artifact on the serving path: maps a feature row to a
predicted value.  The artifact is opaque; only its input/output behaviour is
modelled. -/
abbrev ServingRegressor : Type := List (Option ℚ) → ℚ

/-- A loaded classifier artifact: maps a feature row to a class index. -/
abbrev ServingClassifier : Type := List (Option ℚ) → ℕ

/-- A loaded scaler artifact: transforms a feature row. -/
abbrev ServingScaler : Type := List (Option ℚ) → List (Option ℚ)

/-- The four model attributes of `WeatherPredictor` after `load_models`:
`None` when loading failed. -/
structure Models where
  temp_model : Option ServingRegressor
  weather_clf : Option ServingClassifier
  humidity_model : Option ServingRegressor
  scaler : Option ServingScaler

/-- `joblib.load` on a path: returns the stored artifact, or raises
`FileNotFoundError` when the file is absent. -/
def joblib_load {α : Type} (present : Bool) (artifact : α) : Except String α :=
  if present then .ok artifact else .error "FileNotFoundError"

/-- Which of the four artifact files exist on disk. -/
structure ArtifactFiles where
  temp_model_file : Bool
  weather_model_file : Bool
  humidity_model_file : Bool
  scaler_file : Bool
deriving Repr, DecidableEq

/-- `WeatherPredictor.load_models` (`predict.py`): the four `joblib.load`
calls run in order inside a single `try` block; the first
`FileNotFoundError` jumps to the handler, which sets all four attributes to
`None`. -/
def load_models (files : ArtifactFiles) (tm : ServingRegressor)
    (wc : ServingClassifier) (hm : ServingRegressor) (sc : ServingScaler) :
    Models :=
  match (do
      let t ← joblib_load files.temp_model_file tm
      let w ← joblib_load files.weather_model_file wc
      let h ← joblib_load files.humidity_model_file hm
      let s ← joblib_load files.scaler_file sc
      pure (t, w, h, s) :
      Except String
        (ServingRegressor × ServingClassifier × ServingRegressor × ServingScaler)) with
  | .ok (t, w, h, s) =>
      { temp_model := some t, weather_clf := some w,
        humidity_model := some h, scaler := some s }
  | .error _ =>
      { temp_model := none, weather_clf := none,
        humidity_model := none, scaler := none }

/-- Dummy regressor artifact used to evaluate `load_models` concretely. -/
def zeroRegressor : ServingRegressor := fun _ => 0

/-- Dummy classifier artifact used to evaluate `load_models` concretely. -/
def zeroClassifier : ServingClassifier := fun _ => 0

/-- Dummy scaler artifact used to evaluate `load_models` concretely. -/
def idScaler : ServingScaler := fun v => v

/-- The `'current'` dictionary assembled in
`WeatherPredictor.predict_for_city` (lines 101-114): every field is the
reading value verbatim; only `aqi_category` is derived. -/
structure CurrentBlock where
  temperature : Option ℚ
  feels_like : Option ℚ
  humidity : Option ℚ
  pressure : Option ℚ
  wind_speed : Option ℚ
  clouds : Option ℚ
  weather : Option String
  description : Option String
  aqi : Option ℤ
  aqi_category : String
  pm2_5 : Option ℚ
  pm10 : Option ℚ
deriving Repr, DecidableEq

/-- The `'current'` block of `predict_for_city`: a verbatim projection of
the live reading plus the derived AQI category string. -/
def current_block (d : Reading) : CurrentBlock :=
  { temperature := d.temperature, feels_like := d.feels_like,
    humidity := d.humidity, pressure := d.pressure,
    wind_speed := d.wind_speed, clouds := d.clouds,
    weather := d.weather_main, description := d.weather_description,
    aqi := d.aqi, aqi_category := aqiCategoryOpt d.aqi,
    pm2_5 := d.pm2_5, pm10 := d.pm10 }

/-- A live reading whose `humidity` field is absent and whose other fields
are all present; used to probe zero-substitution in feature rows. -/
def readingNoHumidity : Reading :=
  { timestamp := "2024-01-01 00:00:00", city := "Delhi",
    temperature := some 25, feels_like := some 26, temp_min := some 20,
    temp_max := some 30, pressure := some 1010, humidity := none,
    wind_speed := some 3, wind_deg := some 90, clouds := some 40,
    weather_main := some "Clear", weather_description := some "clear sky",
    aqi := some 2, pm2_5 := some 12, pm10 := some 20, co := some 1,
    no2 := some 1, o3 := some 1, so2 := some 1 }

/-- The hardcoded decoding list in `WeatherPredictor.predict_for_city`
(line 132). -/
def weather_classes : List String :=
  ["Clear", "Clouds", "Rain", "Drizzle", "Snow", "Thunderstorm"]

/-- Lexicographic comparison of label strings by character code, the order
numpy uses when `LabelEncoder.fit` sorts the distinct labels. -/
def charListLe : List Char → List Char → Bool
  | [], _ => true
  | _ :: _, [] => false
  | a :: as, b :: bs =>
      if a = b then charListLe as bs else decide (a.toNat < b.toNat)

/-- Insert a label into an already sorted label list. -/
def insertSorted (x : String) : List String → List String
  | [] => [x]
  | y :: ys =>
      if charListLe x.data y.data then x :: y :: ys else y :: insertSorted x ys

/-- Sort a label list lexicographically. -/
def sortLabels : List String → List String
  | [] => []
  | x :: xs => insertSorted x (sortLabels xs)

/-- Remove duplicate labels, keeping first occurrences. -/
def dedupLabels (l : List String) : List String :=
  l.foldl (fun acc x => if acc.contains x then acc else acc ++ [x]) []

/-- The `classes_` attribute produced by `LabelEncoder.fit_transform` in
`WeatherModelTrainer.train_weather_classifier` (`train_model.py` line 102):
scikit-learn maps label i to the i-th entry of the sorted deduplicated
label list. -/
def label_encoder_classes (labels : List String) : List String :=
  sortLabels (dedupLabels labels)

/-- The `ml_predictions` dictionary of `predict_for_city`: the humidity and
weather keys may be absent. -/
structure MlPredictions where
  predicted_temperature : ℚ
  temp_difference : ℚ
  predicted_humidity : Option ℚ
  predicted_weather : Option String
deriving Repr, DecidableEq

/-- The full result dictionary of `predict_for_city`. -/
structure Prediction where
  city : String
  timestamp : String
  current : CurrentBlock
  ml_predictions : Option MlPredictions
  health_advice : String
deriving Repr, DecidableEq

/-- Round half to even, the rounding Python `round` uses, on rationals. -/
def round_half_even (x : ℚ) : ℤ :=
  let f : ℤ := Int.floor x
  if x - f < 1/2 then f
  else if 1/2 < x - f then f + 1
  else if f % 2 = 0 then f else f + 1

/-- Python `round(x, 2)`. -/
def py_round2 (x : ℚ) : ℚ := (round_half_even (x * 100) : ℚ) / 100

/-- Python subtraction `a - b` where `b` may be `None`: raises a
`TypeError` on an absent operand. -/
def pySub (a : ℚ) : Option ℚ → Except String ℚ
  | some v => .ok (a - v)
  | none => .error "TypeError: unsupported operand type"

/-- The call `get_health_advice(live_data['aqi'], live_data['pm2_5'])`
where the aqi may be absent: `None >= 4` raises a `TypeError`. -/
def pyHealthAdvice (aqi : Option ℤ) (pm25 : Option ℚ) : Except String String :=
  match aqi with
  | none => .error "TypeError: NoneType comparison"
  | some a => .ok (get_health_advice a pm25)

/-- `WeatherPredictor.predict_for_city` (`predict.py`).  `live` is the
value returned by `collector.fetch_weather_data`; `None` produces the
error dictionary, modelled as `Except.error`, and a Python exception
escaping the body is modelled the same way (both make the caller in
`app.py` fall back). -/
def predict_for_city (m : Models) (live : Option Reading)
    (city_name : String) (now : Timestamp) : Except String Prediction :=
  match live with
  | none => .error ("Could not fetch data for " ++ city_name)
  | some d =>
      let ft := features_temp d now
      let fw := features_weather d now
      let fh := features_humidity d now
      let assemble : Option MlPredictions → Except String Prediction :=
        fun ml =>
          match pyHealthAdvice d.aqi d.pm2_5 with
          | .error e => .error e
          | .ok advice =>
              .ok { city := city_name, timestamp := d.timestamp,
                    current := current_block d, ml_predictions := ml,
                    health_advice := advice }
      match m.temp_model, m.scaler with
      | some tm, some sc =>
          let pred_temp := tm (sc ft)
          match pySub pred_temp d.temperature with
          | .error e => .error e
          | .ok tdiff =>
              let base : MlPredictions :=
                { predicted_temperature := py_round2 pred_temp,
                  temp_difference := py_round2 tdiff,
                  predicted_humidity := none, predicted_weather := none }
              let withHum : MlPredictions :=
                match m.humidity_model with
                | some hm =>
                    { base with
                        predicted_humidity := some (py_round2 (hm fh)) }
                | none => base
              let withWx : MlPredictions :=
                match m.weather_clf with
                | some wc =>
                    let code := wc fw
                    if h : code < weather_classes.length then
                      { withHum with
                          predicted_weather :=
                            some (weather_classes.get ⟨code, h⟩) }
                    else withHum
                | none => withHum
              assemble (some withWx)
      | none, _ => assemble none
      | _, none => assemble none

/-- A row of the cached historical dataset (`data/weather_data.csv`) with
the columns `get_sample_city_data` in `app.py` reads; the `float()` and
`int()` conversions there require these columns to be present. -/
structure Row where
  timestamp : String
  city : String
  temperature : ℚ
  feels_like : ℚ
  humidity : ℤ
  pressure : ℤ
  wind_speed : ℚ
  clouds : ℤ
  weather_main : String
  weather_description : String
  aqi : ℤ
  pm2_5 : ℚ
  pm10 : ℚ
deriving Repr, DecidableEq

/-- The `"current"` dictionary built by `get_sample_city_data` from the
selected dataset row. -/
def row_current (r : Row) : CurrentBlock :=
  { temperature := some r.temperature, feels_like := some r.feels_like,
    humidity := some (r.humidity : ℚ), pressure := some (r.pressure : ℚ),
    wind_speed := some r.wind_speed, clouds := some (r.clouds : ℚ),
    weather := some r.weather_main,
    description := some r.weather_description,
    aqi := some r.aqi, aqi_category := get_aqi_category r.aqi,
    pm2_5 := some r.pm2_5, pm10 := some r.pm10 }

/-- The dictionary returned by `get_sample_city_data`. -/
structure FallbackData where
  city : String
  timestamp : String
  current : CurrentBlock
deriving Repr, DecidableEq

/-- The module-level `has_data` flag of `app.py`: false when the dataset
file is absent or failed to load, otherwise `len(sample_data) > 0`. -/
def hasData : Option (List Row) → Bool
  | none => false
  | some rows => decide (0 < rows.length)

/-- `get_sample_city_data` (`app.py` lines 52-80): filter the dataset to
the requested city, fall back to the whole dataset when no row matches,
and take the last row (`iloc[-1]`, the most recently appended); the
returned `"city"` field is always the requested name. -/
def get_sample_city_data (ds : Option (List Row)) (city : String) :
    Option FallbackData :=
  if hasData ds then
    let sample_data := ds.getD []
    let city_rows := sample_data.filter (fun r => r.city == city)
    let city_data := if city_rows.isEmpty then sample_data else city_rows
    city_data.getLast?.map (fun latest =>
      { city := city, timestamp := latest.timestamp,
        current := row_current latest })
  else none

/-- The possible outcomes of the `/api/predict` route. -/
inductive ApiResult where
  | live (p : Prediction)
  | fallback (data : FallbackData) (health_advice : String)
  | no_data (errorMsg : String)
  | server_error (msg : String)
deriving Repr, DecidableEq

/-- The `/api/predict` route of `app.py` (lines 100-129): try the live
prediction, treat an error dictionary or an exception as failure, then try
`get_sample_city_data` and attach health advice, and finally answer 404
with a remediation hint when no data exists at all. -/
def api_predict (m : Models) (live : Option Reading) (ds : Option (List Row))
    (city : String) (now : Timestamp) : ApiResult :=
  match predict_for_city m live city now with
  | .ok p => .live p
  | .error _ =>
      match get_sample_city_data ds city with
      | some fb =>
          match pyHealthAdvice fb.current.aqi fb.current.pm2_5 with
          | .ok advice => .fallback fb advice
          | .error e => .server_error e
      | none => .no_data "No data available. Run generate_sample_data.py."

/-- A fitted regressor in the training pipeline: maps a feature row to a
predicted value. -/
abbrev Regressor : Type := List ℚ → ℚ

/-- A fitted `StandardScaler`: transforms one feature row. -/
abbrev FittedScaler : Type := List ℚ → List ℚ

/-- `sklearn.metrics.mean_absolute_error`. -/
def mean_absolute_error (y_true y_pred : List ℚ) : ℚ :=
  ((y_true.zip y_pred).map (fun p => |p.1 - p.2|)).sum / y_true.length

/-- `WeatherModelTrainer.train_temperature_model` (`train_model.py`),
downstream of the seeded 80/20 `train_test_split`, whose output is the
`X_train`/`X_test`/`y_train`/`y_test` parameters; the estimator fitting
procedures are opaque parameters.  The body mirrors the source data flow:
the scaler is fit on the training split only, the two candidates are fit
on the scaled training matrix, both are evaluated by MAE on the same
scaled held-out matrix, the loop keeps a later candidate only on a strict
`mae < best_score` improvement (with `best_score` starting at infinity),
and the selected model is persisted together with the fitted scaler. -/
def train_temperature_model (X_train X_test : List (List ℚ))
    (y_train y_test : List ℚ)
    (fit_scaler : List (List ℚ) → FittedScaler)
    (fit_rf fit_gb : List (List ℚ) → List ℚ → Regressor) :
    Option Regressor × FittedScaler :=
  let scaler := fit_scaler X_train
  let X_train_scaled := X_train.map scaler
  let X_test_scaled := X_test.map scaler
  let models : List (String × Regressor) :=
    [("RandomForest", fit_rf X_train_scaled y_train),
     ("GradientBoosting", fit_gb X_train_scaled y_train)]
  let best := models.foldl
    (fun acc nm =>
      let y_pred := X_test_scaled.map nm.2
      let mae := mean_absolute_error y_test y_pred
      match acc with
      | none => some (nm.2, mae)
      | some (b, bs) => if mae < bs then some (nm.2, mae) else some (b, bs))
    none
  (best.map Prod.fst, scaler)

/-- The `main`/`wind`/`clouds`/`weather` parts of the OpenWeather response
as read by `WeatherDataCollector._parse_data`; every field is fetched with
`.get` and may be absent. -/
structure WeatherPayload where
  temp : Option ℚ
  feels_like : Option ℚ
  temp_min : Option ℚ
  temp_max : Option ℚ
  pressure : Option ℚ
  humidity : Option ℚ
  wind_speed : Option ℚ
  wind_deg : Option ℚ
  clouds_all : Option ℚ
  weather_main : Option String
  weather_description : Option String
deriving Repr, DecidableEq

/-- The air-pollution response part read by `_parse_data`. -/
structure AirPayload where
  aqi : Option ℤ
  pm2_5 : Option ℚ
  pm10 : Option ℚ
  co : Option ℚ
  no2 : Option ℚ
  o3 : Option ℚ
  so2 : Option ℚ
deriving Repr, DecidableEq

/-- `WeatherDataCollector._parse_data`: assemble the reading; missing
nested fields stay absent. -/
def parse_data (city ts : String) (w : WeatherPayload) (a : AirPayload) :
    Reading :=
  { timestamp := ts, city := city,
    temperature := w.temp, feels_like := w.feels_like,
    temp_min := w.temp_min, temp_max := w.temp_max,
    pressure := w.pressure, humidity := w.humidity,
    wind_speed := w.wind_speed, wind_deg := w.wind_deg,
    clouds := w.clouds_all, weather_main := w.weather_main,
    weather_description := w.weather_description,
    aqi := a.aqi, pm2_5 := a.pm2_5, pm10 := a.pm10,
    co := a.co, no2 := a.no2, o3 := a.o3, so2 := a.so2 }

/-- `WeatherDataCollector.get_coordinates`: the geocoding lookup yields a
coordinate pair, or `(None, None)` on an empty result or any exception. -/
def get_coordinates (geo : Option (ℚ × ℚ)) : Option ℚ × Option ℚ :=
  match geo with
  | some (la, lo) => (some la, some lo)
  | none => (none, none)

/-- Python truthiness test `not lat` on an optional coordinate: `None` and
`0` are falsy. -/
def py_coord_falsy : Option ℚ → Bool
  | none => true
  | some v => v = 0

/-- An HTTP request issued by `fetch_weather_data`. -/
inductive ApiCall where
  | weather (lat lon : ℚ)
  | air_pollution (lat lon : ℚ)
deriving Repr, DecidableEq

/-- `WeatherDataCollector.fetch_weather_data` (`data_collector.py`),
parameterised by the geocoding result and the two downstream services, and
instrumented with the list of HTTP requests it issues: coordinates failing
the `if not lat or not lon` truthiness test return `None` before any
request; a failing request returns `None`; otherwise the parsed reading is
returned. -/
def fetch_weather_data (geo : Option (ℚ × ℚ))
    (weather_api : ℚ → ℚ → Except String WeatherPayload)
    (air_api : ℚ → ℚ → Except String AirPayload)
    (city ts : String) : Option Reading × List ApiCall :=
  let coords := get_coordinates geo
  if py_coord_falsy coords.1 || py_coord_falsy coords.2 then (none, [])
  else
    let lat := coords.1.getD 0
    let lon := coords.2.getD 0
    match weather_api lat lon with
    | .error _ => (none, [ApiCall.weather lat lon])
    | .ok wd =>
        match air_api lat lon with
        | .error _ =>
            (none, [ApiCall.weather lat lon, ApiCall.air_pollution lat lon])
        | .ok ad =>
            (some (parse_data city ts wd ad),
             [ApiCall.weather lat lon, ApiCall.air_pollution lat lon])

/-- A `WeatherPredictor` with all four artifacts loaded (as dummy
artifacts), used to evaluate the serving pipeline concretely. -/
def allModels : Models :=
  { temp_model := some zeroRegressor, weather_clf := some zeroClassifier,
    humidity_model := some zeroRegressor, scaler := some idScaler }

end MeteoPredictor

namespace MeteoPredictor

/-- C5: the AQI category mapping returns exactly Good, Fair, Moderate, Poor,
Very Poor on the integers 1 through 5, and every integer outside 1 to 5 maps
to Unknown. -/
theorem aqi_category_table :
    get_aqi_category 1 = "Good" ∧
    get_aqi_category 2 = "Fair" ∧
    get_aqi_category 3 = "Moderate" ∧
    get_aqi_category 4 = "Poor" ∧
    get_aqi_category 5 = "Very Poor" ∧
    ∀ aqi : ℤ, aqi < 1 ∨ 5 < aqi → get_aqi_category aqi = "Unknown" := by
  refine ⟨rfl, rfl, rfl, rfl, rfl, ?_⟩
  intro aqi h
  unfold get_aqi_category
  rcases h with h | h <;>
    · rw [if_neg (by omega), if_neg (by omega), if_neg (by omega),
        if_neg (by omega), if_neg (by omega)]

/-- Witness for C5: the out-of-range clause evaluated at 7. -/
theorem aqi_category_table_witness : get_aqi_category 7 = "Unknown" :=
  aqi_category_table.2.2.2.2.2 7 (by omega)

/-- C4: the health advisor returns the poor text if `4 ≤ aqi` or `pm2_5` is
present and exceeds 55; otherwise the moderate text exactly when `aqi = 3`;
otherwise the good text — any `aqi` below 3 with low or absent `pm2_5`
yields the good text, without validating `aqi` against the 1–5 range. -/
theorem health_advice_spec (aqi : ℤ) (pm25 : Option ℚ) :
    ((4 ≤ aqi ∨ (∃ v, pm25 = some v ∧ 55 < v)) →
      get_health_advice aqi pm25 =
        "⚠️ Air quality is poor. Avoid outdoor activities. Wear a mask if going outside.") ∧
    (aqi < 4 → (∀ v, pm25 = some v → v ≤ 55) → aqi = 3 →
      get_health_advice aqi pm25 =
        "⚡ Moderate air quality. Sensitive groups should limit outdoor activities.") ∧
    (aqi < 4 → (∀ v, pm25 = some v → v ≤ 55) → aqi ≠ 3 →
      get_health_advice aqi pm25 =
        "✅ Air quality is good. Safe for outdoor activities.") := by
  refine ⟨?_, ?_, ?_⟩
  · rintro (h | ⟨v, rfl, hv⟩)
    · unfold get_health_advice
      rw [if_pos (Or.inl h)]
    · have ht : pyTruthy (some v) = true := by
        simp only [pyTruthy, decide_eq_true_eq]
        intro h0
        rw [h0] at hv
        exact absurd hv (by norm_num)
      unfold get_health_advice
      rw [if_pos (Or.inr ⟨ht, by simpa using hv⟩)]
  · intro hlt hpm h3
    have hcond : ¬ (4 ≤ aqi ∨ (pyTruthy pm25 = true ∧ 55 < pm25.getD 0)) := by
      rintro (h | ⟨ht, hgt⟩)
      · omega
      · cases pm25 with
        | none => simp [pyTruthy] at ht
        | some v => exact absurd hgt (not_lt.mpr (hpm v rfl))
    unfold get_health_advice
    rw [if_neg hcond, if_pos h3]
  · intro hlt hpm h3
    have hcond : ¬ (4 ≤ aqi ∨ (pyTruthy pm25 = true ∧ 55 < pm25.getD 0)) := by
      rintro (h | ⟨ht, hgt⟩)
      · omega
      · cases pm25 with
        | none => simp [pyTruthy] at ht
        | some v => exact absurd hgt (not_lt.mpr (hpm v rfl))
    unfold get_health_advice
    rw [if_neg hcond, if_neg h3]

/-- Witness for C4: aqi 2 with absent pm2_5 yields the good text. -/
theorem health_advice_spec_witness :
    get_health_advice 2 none =
      "✅ Air quality is good. Safe for outdoor activities." :=
  (health_advice_spec 2 none).2.2 (by omega) (by intro v h; cases h) (by omega)

/-- C2 counterexample: with only the humidity artifact file missing (the
temperature model, classifier and scaler files all present), `load_models`
leaves the temperature model, the classifier and the scaler all unloaded —
artifact presence is not recorded independently. -/
theorem load_models_counterexample :
    (load_models ⟨true, true, false, true⟩ zeroRegressor zeroClassifier
        zeroRegressor idScaler).temp_model = none ∧
    (load_models ⟨true, true, false, true⟩ zeroRegressor zeroClassifier
        zeroRegressor idScaler).weather_clf = none ∧
    (load_models ⟨true, true, false, true⟩ zeroRegressor zeroClassifier
        zeroRegressor idScaler).scaler = none :=
  ⟨rfl, rfl, rfl⟩

/-- C2 amended: model loading is all-or-nothing — if every artifact file is
present all four models are loaded, and if any file is missing all four
attributes are set to `None` for the process lifetime. -/
theorem load_models_all_or_nothing (files : ArtifactFiles)
    (tm : ServingRegressor) (wc : ServingClassifier) (hm : ServingRegressor)
    (sc : ServingScaler) :
    load_models files tm wc hm sc =
      if files.temp_model_file && files.weather_model_file &&
          files.humidity_model_file && files.scaler_file then
        { temp_model := some tm, weather_clf := some wc,
          humidity_model := some hm, scaler := some sc }
      else
        { temp_model := none, weather_clf := none,
          humidity_model := none, scaler := none } := by
  obtain ⟨t, w, h, s⟩ := files
  cases t <;> cases w <;> cases h <;> cases s <;> rfl

/-- C6: feature extraction is a deterministic function of the reading and
the timestamp and yields exactly three vectors — the 11-element temperature
row, the 9-element weather row and the 7-element humidity row — with the
contents of spec section 4.2 in that fixed order. -/
theorem feature_vectors_spec (d : Reading) (now : Timestamp) :
    features_temp d now =
      [d.feels_like, d.temp_min, d.temp_max, d.pressure, d.humidity,
       d.wind_speed, d.clouds, some (pyOrZero d.pm2_5),
       some (pyOrZero d.pm10), some (now.hour : ℚ), some (now.month : ℚ)] ∧
    (features_temp d now).length = 11 ∧
    features_weather d now =
      [d.temperature, d.humidity, d.pressure, d.wind_speed, d.clouds,
       some (pyOrZero d.pm2_5), d.aqi.map (fun a => (a : ℚ)),
       some (now.hour : ℚ), some (now.month : ℚ)] ∧
    (features_weather d now).length = 9 ∧
    features_humidity d now =
      [d.temperature, d.pressure, d.wind_speed, d.clouds,
       some (pyOrZero d.pm2_5), some (now.hour : ℚ), some (now.month : ℚ)] ∧
    (features_humidity d now).length = 7 ∧
    ∀ d2 now2, d2 = d → now2 = now →
      features_temp d2 now2 = features_temp d now ∧
      features_weather d2 now2 = features_weather d now ∧
      features_humidity d2 now2 = features_humidity d now := by
  refine ⟨rfl, rfl, rfl, rfl, rfl, rfl, ?_⟩
  rintro d2 now2 rfl rfl
  exact ⟨rfl, rfl, rfl⟩

/-- Witness for C6: the determinism clause evaluated on a concrete reading
and timestamp. -/
theorem feature_vectors_spec_witness :
    features_temp readingNoHumidity ⟨12, 6⟩ =
      features_temp readingNoHumidity ⟨12, 6⟩ :=
  ((feature_vectors_spec readingNoHumidity ⟨12, 6⟩).2.2.2.2.2.2
    readingNoHumidity ⟨12, 6⟩ rfl rfl).1

/-- C3 counterexample: it is not the case that an absent numeric field is
always replaced by a numeric zero in the feature rows — a reading with an
absent `humidity` puts the absent value itself into the temperature row. -/
theorem feature_zero_subst_counterexample :
    ¬ (∀ (d : Reading) (now : Timestamp),
        ∀ x ∈ features_temp d now, x ≠ none) := by
  intro h
  exact h readingNoHumidity ⟨12, 6⟩ none
    (by simp [features_temp, readingNoHumidity]) rfl

/-- C3 amended: zero-substitution applies exactly to the `pm2_5` and `pm10`
slots of the feature rows (via Python `or 0`); every other slot carries the
optional reading field verbatim, so absence of any other numeric field does
propagate into the vector; the displayed current block reports `pm2_5`,
`pm10` and `humidity` verbatim with no substitution, and an absent `pm2_5`
or `pm10` does become `0` in the feature rows. -/
theorem feature_partial_zero_subst (d : Reading) (now : Timestamp) :
    (features_temp d now)[7]? = some (some (pyOrZero d.pm2_5)) ∧
    (features_temp d now)[8]? = some (some (pyOrZero d.pm10)) ∧
    (features_temp d now)[4]? = some d.humidity ∧
    (features_weather d now)[0]? = some d.temperature ∧
    (features_weather d now)[5]? = some (some (pyOrZero d.pm2_5)) ∧
    (features_humidity d now)[4]? = some (some (pyOrZero d.pm2_5)) ∧
    (current_block d).pm2_5 = d.pm2_5 ∧
    (current_block d).pm10 = d.pm10 ∧
    (current_block d).humidity = d.humidity ∧
    pyOrZero none = 0 :=
  ⟨rfl, rfl, rfl, rfl, rfl, rfl, rfl, rfl, rfl, rfl⟩

theorem get_sample_city_data_city_match (rows : List Row) (city : String)
    (r : Row)
    (hr : (rows.filter (fun q => q.city == city)).getLast? = some r) :
    get_sample_city_data (some rows) city =
      some ⟨city, r.timestamp, row_current r⟩ := by
  have hfil : rows.filter (fun q => q.city == city) ≠ [] := by
    intro h
    rw [h] at hr
    cases hr
  have hrows : rows ≠ [] := by
    intro h
    subst h
    simp at hfil
  unfold get_sample_city_data
  rw [if_pos (by simpa [hasData] using List.length_pos.mpr hrows)]
  simp only [Option.getD_some]
  rw [if_neg (by simp [List.isEmpty_iff, hfil]), hr]
  rfl

theorem get_sample_city_data_no_match (rows : List Row) (city : String)
    (r : Row) (hfil : rows.filter (fun q => q.city == city) = [])
    (hr : rows.getLast? = some r) :
    get_sample_city_data (some rows) city =
      some ⟨city, r.timestamp, row_current r⟩ := by
  have hrows : rows ≠ [] := by
    intro h
    subst h
    cases hr
  unfold get_sample_city_data
  rw [if_pos (by simpa [hasData] using List.length_pos.mpr hrows)]
  simp only [Option.getD_some]
  rw [hfil, if_pos (by simp), hr]
  rfl

/-- C1: with live acquisition failing, the `/api/predict` route serves the
most recently inserted dataset row for the requested city when one exists;
otherwise, on a non-empty dataset, the most recently inserted row overall
relabelled with the requested city name and all other fields taken from
the substitute row; and with an absent or empty dataset it answers with
the explicit populate-the-dataset error. -/
theorem fallback_ordering (m : Models) (rows : List Row) (city : String)
    (now : Timestamp) :
    (∀ r, (rows.filter (fun q => q.city == city)).getLast? = some r →
        api_predict m none (some rows) city now =
          .fallback ⟨city, r.timestamp, row_current r⟩
            (get_health_advice r.aqi (some r.pm2_5))) ∧
    (rows.filter (fun q => q.city == city) = [] →
      ∀ r, rows.getLast? = some r →
        api_predict m none (some rows) city now =
          .fallback ⟨city, r.timestamp, row_current r⟩
            (get_health_advice r.aqi (some r.pm2_5))) ∧
    (rows = [] →
        api_predict m none (some rows) city now =
          .no_data "No data available. Run generate_sample_data.py.") ∧
    (api_predict m none none city now =
        .no_data "No data available. Run generate_sample_data.py.") := by
  refine ⟨?_, ?_, ?_, ?_⟩
  · intro r hr
    unfold api_predict
    rw [show predict_for_city m none city now =
          .error ("Could not fetch data for " ++ city) from rfl,
      get_sample_city_data_city_match rows city r hr]
    rfl
  · intro hfil r hr
    unfold api_predict
    rw [show predict_for_city m none city now =
          .error ("Could not fetch data for " ++ city) from rfl,
      get_sample_city_data_no_match rows city r hfil hr]
    rfl
  · intro h
    subst h
    rfl
  · rfl

/-- A concrete dataset row for city X. -/
def rowX : Row :=
  { timestamp := "2024-01-01 08:00:00", city := "X", temperature := 20,
    feels_like := 21, humidity := 50, pressure := 1000, wind_speed := 2,
    clouds := 10, weather_main := "Clear",
    weather_description := "clear sky", aqi := 2, pm2_5 := 10, pm10 := 20 }

/-- A concrete dataset row for city Y, inserted after `rowX`. -/
def rowY : Row :=
  { timestamp := "2024-01-01 09:00:00", city := "Y", temperature := 30,
    feels_like := 32, humidity := 60, pressure := 1005, wind_speed := 4,
    clouds := 80, weather_main := "Clouds",
    weather_description := "overcast clouds", aqi := 4, pm2_5 := 60,
    pm10 := 90 }

/-- A `WeatherPredictor` with no artifact loaded. -/
def noModels : Models :=
  { temp_model := none, weather_clf := none, humidity_model := none,
    scaler := none }

/-- Witness for C1: on the dataset `[rowX, rowY]` with acquisition failing,
a request for city X is served from `rowX`, the only row for X. -/
theorem fallback_ordering_witness :
    api_predict noModels none (some [rowX, rowY]) "X" ⟨8, 1⟩ =
      .fallback ⟨"X", rowX.timestamp, row_current rowX⟩
        (get_health_advice rowX.aqi (some rowX.pm2_5)) :=
  (fallback_ordering noModels [rowX, rowY] "X" ⟨8, 1⟩).1 rowX (by decide)

/-- C7: temperature training evaluates the two candidates on the same
scaled held-out matrix by mean absolute error and persists the strictly
lower-MAE candidate together with the scaler fitted on the training split;
an exact tie keeps the first-evaluated candidate because the comparison is
a strict less-than. -/
theorem temp_model_selection (X_train X_test : List (List ℚ))
    (y_train y_test : List ℚ)
    (fit_scaler : List (List ℚ) → FittedScaler)
    (fit_rf fit_gb : List (List ℚ) → List ℚ → Regressor) :
    (mean_absolute_error y_test
        ((X_test.map (fit_scaler X_train)).map
          (fit_gb (X_train.map (fit_scaler X_train)) y_train)) <
      mean_absolute_error y_test
        ((X_test.map (fit_scaler X_train)).map
          (fit_rf (X_train.map (fit_scaler X_train)) y_train)) →
      train_temperature_model X_train X_test y_train y_test fit_scaler
          fit_rf fit_gb =
        (some (fit_gb (X_train.map (fit_scaler X_train)) y_train),
         fit_scaler X_train)) ∧
    (¬ mean_absolute_error y_test
        ((X_test.map (fit_scaler X_train)).map
          (fit_gb (X_train.map (fit_scaler X_train)) y_train)) <
      mean_absolute_error y_test
        ((X_test.map (fit_scaler X_train)).map
          (fit_rf (X_train.map (fit_scaler X_train)) y_train)) →
      train_temperature_model X_train X_test y_train y_test fit_scaler
          fit_rf fit_gb =
        (some (fit_rf (X_train.map (fit_scaler X_train)) y_train),
         fit_scaler X_train)) := by
  constructor
  · intro h
    unfold train_temperature_model
    simp only [List.foldl_cons, List.foldl_nil]
    rw [if_pos h]
    rfl
  · intro h
    unfold train_temperature_model
    simp only [List.foldl_cons, List.foldl_nil]
    rw [if_neg h]
    rfl

/-- Witness for C7: with the two candidates scoring MAE 0.9 and 1.2 on the
held-out point, the persisted model is the 0.9 candidate (here the second,
boosting, one) together with the fitted scaler. -/
theorem temp_model_selection_witness :
    train_temperature_model [[(0 : ℚ)]] [[(0 : ℚ)]] [0] [0]
        (fun _ => id) (fun _ _ => fun _ => 6/5) (fun _ _ => fun _ => 9/10) =
      (some ((fun _ _ => fun _ : List ℚ => (9 : ℚ)/10) [[(0 : ℚ)]] [0]),
       (fun _ : List (List ℚ) => (id : List ℚ → List ℚ)) [[(0 : ℚ)]]) :=
  (temp_model_selection [[0]] [[0]] [0] [0] (fun _ => id)
      (fun _ _ => fun _ => 6/5) (fun _ _ => fun _ => 9/10)).1
    (by
      norm_num [mean_absolute_error]
      rw [abs_of_nonneg (by norm_num), abs_of_nonneg (by norm_num)]
      norm_num)

/-- C10: a geocoding result whose latitude or longitude is exactly 0 fails
the Python truthiness test in `fetch_weather_data`, which returns `None`
without issuing the weather or air-pollution requests — exactly like an
unresolvable city. -/
theorem zero_coordinate_fallback (lat lon : ℚ)
    (weather_api : ℚ → ℚ → Except String WeatherPayload)
    (air_api : ℚ → ℚ → Except String AirPayload)
    (city ts : String) (h : lat = 0 ∨ lon = 0) :
    fetch_weather_data (some (lat, lon)) weather_api air_api city ts =
      (none, []) ∧
    fetch_weather_data none weather_api air_api city ts = (none, []) := by
  constructor
  · unfold fetch_weather_data get_coordinates
    rcases h with rfl | rfl <;> simp [py_coord_falsy]
  · rfl

/-- Witness for C10: a city geocoded to the equator (latitude 0) with both
downstream services reachable still yields the failure value and no
request. -/
theorem zero_coordinate_fallback_witness :
    fetch_weather_data (some (0, 77))
        (fun _ _ => Except.error "unreachable")
        (fun _ _ => Except.error "unreachable") "EquatorCity"
        "2024-01-01 00:00:00" = (none, []) :=
  (zero_coordinate_fallback 0 77 (fun _ _ => Except.error "unreachable")
    (fun _ _ => Except.error "unreachable") "EquatorCity"
    "2024-01-01 00:00:00" (Or.inl rfl)).1

theorem predict_for_city_assembled (tm : ServingRegressor)
    (sc : ServingScaler) (owc : Option ServingClassifier)
    (ohm : Option ServingRegressor) (d : Reading) (city : String)
    (now : Timestamp) (t : ℚ) (a : ℤ)
    (ht : d.temperature = some t) (ha : d.aqi = some a) :
    ∃ mp : MlPredictions,
      predict_for_city ⟨some tm, owc, ohm, some sc⟩ (some d) city now =
        .ok { city := city, timestamp := d.timestamp,
              current := current_block d, ml_predictions := some mp,
              health_advice := get_health_advice a d.pm2_5 } ∧
      mp.predicted_temperature = py_round2 (tm (sc (features_temp d now))) ∧
      mp.predicted_humidity.isSome = ohm.isSome ∧
      (mp.predicted_weather.isSome = true → owc.isSome = true) ∧
      ∀ wc, owc = some wc →
        mp.predicted_weather =
          if h : wc (features_weather d now) < weather_classes.length then
            some (weather_classes.get ⟨wc (features_weather d now), h⟩)
          else none := by
  cases ohm with
  | none =>
    cases owc with
    | none =>
        refine ⟨{ predicted_temperature :=
                    py_round2 (tm (sc (features_temp d now))),
                  temp_difference :=
                    py_round2 (tm (sc (features_temp d now)) - t),
                  predicted_humidity := none, predicted_weather := none },
                ?_, rfl, rfl, ?_, ?_⟩
        · simp [predict_for_city, pySub, pyHealthAdvice, ht, ha]
        · intro h; exact h
        · intro wc hwc; cases hwc
    | some wc =>
        by_cases hlt : wc (features_weather d now) < weather_classes.length
        · refine ⟨{ predicted_temperature :=
                      py_round2 (tm (sc (features_temp d now))),
                    temp_difference :=
                      py_round2 (tm (sc (features_temp d now)) - t),
                    predicted_humidity := none,
                    predicted_weather :=
                      some (weather_classes.get
                        ⟨wc (features_weather d now), hlt⟩) },
                  ?_, rfl, rfl, ?_, ?_⟩
          · simp [predict_for_city, pySub, pyHealthAdvice, ht, ha, hlt]
          · intro _; rfl
          · intro wc2 hwc2
            obtain rfl := Option.some.inj hwc2
            rw [dif_pos hlt]
        · refine ⟨{ predicted_temperature :=
                      py_round2 (tm (sc (features_temp d now))),
                    temp_difference :=
                      py_round2 (tm (sc (features_temp d now)) - t),
                    predicted_humidity := none,
                    predicted_weather := none },
                  ?_, rfl, rfl, ?_, ?_⟩
          · simp [predict_for_city, pySub, pyHealthAdvice, ht, ha, hlt]
          · intro h; cases h
          · intro wc2 hwc2
            obtain rfl := Option.some.inj hwc2
            rw [dif_neg hlt]
  | some hm =>
    cases owc with
    | none =>
        refine ⟨{ predicted_temperature :=
                    py_round2 (tm (sc (features_temp d now))),
                  temp_difference :=
                    py_round2 (tm (sc (features_temp d now)) - t),
                  predicted_humidity :=
                    some (py_round2 (hm (features_humidity d now))),
                  predicted_weather := none },
                ?_, rfl, rfl, ?_, ?_⟩
        · simp [predict_for_city, pySub, pyHealthAdvice, ht, ha]
        · intro h; cases h
        · intro wc hwc; cases hwc
    | some wc =>
        by_cases hlt : wc (features_weather d now) < weather_classes.length
        · refine ⟨{ predicted_temperature :=
                      py_round2 (tm (sc (features_temp d now))),
                    temp_difference :=
                      py_round2 (tm (sc (features_temp d now)) - t),
                    predicted_humidity :=
                      some (py_round2 (hm (features_humidity d now))),
                    predicted_weather :=
                      some (weather_classes.get
                        ⟨wc (features_weather d now), hlt⟩) },
                  ?_, rfl, rfl, ?_, ?_⟩
          · simp [predict_for_city, pySub, pyHealthAdvice, ht, ha, hlt]
          · intro _; rfl
          · intro wc2 hwc2
            obtain rfl := Option.some.inj hwc2
            rw [dif_pos hlt]
        · refine ⟨{ predicted_temperature :=
                      py_round2 (tm (sc (features_temp d now))),
                    temp_difference :=
                      py_round2 (tm (sc (features_temp d now)) - t),
                    predicted_humidity :=
                      some (py_round2 (hm (features_humidity d now))),
                    predicted_weather := none },
                  ?_, rfl, rfl, ?_, ?_⟩
          · simp [predict_for_city, pySub, pyHealthAdvice, ht, ha, hlt]
          · intro h; cases h
          · intro wc2 hwc2
            obtain rfl := Option.some.inj hwc2
            rw [dif_neg hlt]

/-- C8: with a well-formed live reading, the request always succeeds and
the `ml_predictions` block is present exactly when both the temperature
model and the scaler are loaded; inside it, the humidity key is present
exactly when the humidity model is loaded and the weather key only when
the classifier is loaded — a missing artifact never fails the request. -/
theorem ml_predictions_presence (m : Models) (d : Reading) (city : String)
    (now : Timestamp) (t : ℚ) (a : ℤ)
    (ht : d.temperature = some t) (ha : d.aqi = some a) :
    ∃ p : Prediction, predict_for_city m (some d) city now = .ok p ∧
      p.ml_predictions.isSome = (m.temp_model.isSome && m.scaler.isSome) ∧
      ∀ mp, p.ml_predictions = some mp →
        mp.predicted_humidity.isSome = m.humidity_model.isSome ∧
        (mp.predicted_weather.isSome = true → m.weather_clf.isSome = true) := by
  obtain ⟨otm, owc, ohm, osc⟩ := m
  cases otm with
  | none =>
      refine ⟨{ city := city, timestamp := d.timestamp,
                current := current_block d, ml_predictions := none,
                health_advice := get_health_advice a d.pm2_5 }, ?_, rfl, ?_⟩
      · cases osc <;> simp [predict_for_city, pyHealthAdvice, ha]
      · rintro mp hmp; cases hmp
  | some tm =>
      cases osc with
      | none =>
          refine ⟨{ city := city, timestamp := d.timestamp,
                    current := current_block d, ml_predictions := none,
                    health_advice := get_health_advice a d.pm2_5 }, ?_, rfl, ?_⟩
          · simp [predict_for_city, pyHealthAdvice, ha]
          · rintro mp hmp; cases hmp
      | some sc =>
          obtain ⟨mp, heq, _, hhum, hwx, _⟩ :=
            predict_for_city_assembled tm sc owc ohm d city now t a ht ha
          refine ⟨_, heq, rfl, ?_⟩
          intro mp2 hmp2
          obtain rfl := Option.some.inj hmp2
          exact ⟨hhum, hwx⟩

/-- Witness for C8: a fully loaded registry and a reading with present
temperature and AQI produce a successful prediction whose block presence
flags match the loaded artifacts. -/
theorem ml_predictions_presence_witness :
    ∃ p : Prediction,
      predict_for_city allModels (some readingNoHumidity) "Delhi" ⟨12, 6⟩ =
        .ok p ∧
      p.ml_predictions.isSome =
        (allModels.temp_model.isSome && allModels.scaler.isSome) ∧
      ∀ mp, p.ml_predictions = some mp →
        mp.predicted_humidity.isSome = allModels.humidity_model.isSome ∧
        (mp.predicted_weather.isSome = true →
          allModels.weather_clf.isSome = true) :=
  ml_predictions_presence allModels readingNoHumidity "Delhi" ⟨12, 6⟩
    25 2 rfl rfl

/-- C9: when the classifier (and the temperature model and scaler) are
loaded, the predicted class index is decoded through the fixed hardcoded
list `["Clear", "Clouds", "Rain", "Drizzle", "Snow", "Thunderstorm"]` and
the weather key is silently omitted whenever the index is at least 6; the
mapping the label encoder fits at training time on these same labels is a
different list, so decoding is independent of it. -/
theorem weather_decoding_spec (m : Models) (d : Reading) (city : String)
    (now : Timestamp) (t : ℚ) (a : ℤ) (tm : ServingRegressor)
    (sc : ServingScaler) (wc : ServingClassifier)
    (ht : d.temperature = some t) (ha : d.aqi = some a)
    (htm : m.temp_model = some tm) (hsc : m.scaler = some sc)
    (hwc : m.weather_clf = some wc) :
    (∃ p mp, predict_for_city m (some d) city now = .ok p ∧
        p.ml_predictions = some mp ∧
        mp.predicted_weather =
          (if h : wc (features_weather d now) < weather_classes.length then
            some (weather_classes.get ⟨wc (features_weather d now), h⟩)
          else none) ∧
        (6 ≤ wc (features_weather d now) → mp.predicted_weather = none)) ∧
    weather_classes =
      ["Clear", "Clouds", "Rain", "Drizzle", "Snow", "Thunderstorm"] ∧
    label_encoder_classes weather_classes ≠ weather_classes := by
  obtain ⟨otm, owc, ohm, osc⟩ := m
  dsimp only at htm hsc hwc
  subst htm
  subst hsc
  subst hwc
  obtain ⟨mp, heq, _, _, _, hdec⟩ :=
    predict_for_city_assembled tm sc (some wc) ohm d city now t a ht ha
  refine ⟨⟨_, mp, heq, rfl, hdec wc rfl, ?_⟩, rfl, by decide⟩
  intro h6
  rw [hdec wc rfl, dif_neg (by simpa [weather_classes] using by omega)]

/-- Witness for C9: a loaded classifier predicting class index 0 yields
the first entry of the hardcoded list. -/
theorem weather_decoding_spec_witness :
    (∃ p mp,
        predict_for_city allModels (some readingNoHumidity) "Delhi" ⟨12, 6⟩ =
          .ok p ∧
        p.ml_predictions = some mp ∧
        mp.predicted_weather =
          (if h : zeroClassifier
              (features_weather readingNoHumidity ⟨12, 6⟩) <
              weather_classes.length then
            some (weather_classes.get
              ⟨zeroClassifier (features_weather readingNoHumidity ⟨12, 6⟩),
               h⟩)
          else none) ∧
        (6 ≤ zeroClassifier (features_weather readingNoHumidity ⟨12, 6⟩) →
          mp.predicted_weather = none)) ∧
    weather_classes =
      ["Clear", "Clouds", "Rain", "Drizzle", "Snow", "Thunderstorm"] ∧
    label_encoder_classes weather_classes ≠ weather_classes :=
  weather_decoding_spec allModels readingNoHumidity "Delhi" ⟨12, 6⟩ 25 2
    zeroRegressor idScaler zeroClassifier rfl rfl rfl rfl rfl

end MeteoPredictor
